import Mathlib

/-!
Verification of the customer ingestion / normalization / classification
pipeline of the whatsapp_crm backend.

The definitions below are a shallow embedding of the Python source:
- `classify_row`, `classify_customers`, `value_counts` embed
  `backend/utils/classifier.py` (`classify_customers`);
- `transformHeader`, `column_mapping`, `renameColumn`, `cleanPhone`,
  `parse_csv_file` embed the normalization stage of
  `backend/utils/classifier.py::parse_csv_file` (lines 76-125), operating on
  an already-read dataframe (the pandas/Excel byte readers are external
  libraries);
- `tokenize`, `pdf_text_fallback`, `pdf_primary`, `parse_pdf_file` embed
  `backend/utils/classifier.py::_parse_pdf_file`;
- `getCell`, `pyTruthGE`, `classifyCell`, `classify_customers_df` embed
  the classification stage as `df.apply(classify_row, axis=1)` executes it
  on raw cells (Python `>=` raises `TypeError` on a string, the boolean
  coercion of a duplicated label's sub-Series raises `ValueError`, and
  `or` short-circuits);
- `rowToDict`, `pyFloat`, `pyInt`, `build_customer_doc` embed the per-row
  document construction of
  `backend/services/customer_service.py::upload_customers` (lines 43-77),
  and `upload_customers_service` / `process_upload` compose the stages in
  source order: parse (line 36), classify (line 39), build (lines 43-79);
- `upload_customers_route` embeds the pre-parse validation of
  `backend/routes/customers.py::upload_customers` (lines 40-61);
- `list_customers` / `clear_customers` embed
  `backend/services/customer_service.py` (lines 97-109) over a list model of
  the MongoDB `customers` collection.

Numeric cells are modelled as exact rationals (`ℚ`): every comparison the
code performs (`>= 50`, `>= 5000`, `>= 10`) is on values where float
rounding is immaterial to the claims checked here.
-/

instance {ε α : Type} [DecidableEq ε] [DecidableEq α] : DecidableEq (Except ε α) := fun a b =>
  match a, b with
  | .ok x, .ok y => decidable_of_iff (x = y) (by simp)
  | .ok _, .error _ => .isFalse (fun h => Except.noConfusion h)
  | .error _, .ok _ => .isFalse (fun h => Except.noConfusion h)
  | .error e1, .error e2 => decidable_of_iff (e1 = e2) (by simp)

/-- A Python scalar cell value: either a string or a number.  Python's
`int`/`float` are both modelled as `ℚ`; `NaN` is not modelled (no claim
below depends on NaN propagation). -/
inductive PyVal
  | str (s : String)
  | num (q : ℚ)
  deriving DecidableEq

/-- `classify_row` from `backend/utils/classifier.py` lines 35-46.  The
category strings are the `CustomerCategory` enum values of
`backend/schemas/models.py`. -/
def classify_row (total_quantity : ℚ) (purchase_count : ℤ) (order_value : ℚ) : String :=
  if ((50 ≤ total_quantity) ∨ (5000 ≤ order_value)) ∧ (10 ≤ purchase_count) then "both"
  else if (50 ≤ total_quantity) ∨ (5000 ≤ order_value) then "bulk_buyer"
  else if 10 ≤ purchase_count then "frequent_customer"
  else "regular"

/-- A row of the canonical numeric fields consumed by `classify_row`.
After `parse_csv_file` succeeds every row has all three populated. -/
structure CanonRow where
  total_quantity : ℚ
  purchase_count : ℤ
  order_value : ℚ
  deriving DecidableEq

/-- `pandas.Series.value_counts().to_dict()` (classifier.py line 51): a
mapping from each value that occurs in the list to its number of
occurrences.  Values that never occur get no entry.  (The Python dict is
keyed in descending-frequency order; only lookup semantics matter here, so
the model keeps `dedup` order.) -/
def value_counts (l : List String) : List (String × ℕ) :=
  l.dedup.map (fun v => (v, l.count v))

/-- `classify_customers` from `backend/utils/classifier.py` lines 14-53,
specialized to rows that already carry the three canonical numeric columns
(after `parse_csv_file` the back-fill of lines 25-32 is a no-op).  Returns
the rows tagged with their category together with the classification
counts. -/
def classify_customers (rows : List CanonRow) : List (CanonRow × String) × List (String × ℕ) :=
  let tagged := rows.map (fun r => (r, classify_row r.total_quantity r.purchase_count r.order_value))
  (tagged, value_counts (tagged.map Prod.snd))

/-- C1: per row, classification is a pure function of the three numeric
fields; `isBulk = total_quantity ≥ 50 ∨ order_value ≥ 5000`,
`isFrequent = purchase_count ≥ 10`, and the category precedence is:
both → "both", only bulk → "bulk_buyer", only frequent →
"frequent_customer", neither → "regular".  The four cases are exhaustive
and mutually exclusive, so exactly one category is assigned. -/
theorem classify_row_precedence (tq : ℚ) (pc : ℤ) (ov : ℚ) :
    ((50 ≤ tq ∨ 5000 ≤ ov) → 10 ≤ pc → classify_row tq pc ov = "both") ∧
    ((50 ≤ tq ∨ 5000 ≤ ov) → ¬ 10 ≤ pc → classify_row tq pc ov = "bulk_buyer") ∧
    (¬ (50 ≤ tq ∨ 5000 ≤ ov) → 10 ≤ pc → classify_row tq pc ov = "frequent_customer") ∧
    (¬ (50 ≤ tq ∨ 5000 ≤ ov) → ¬ 10 ≤ pc → classify_row tq pc ov = "regular") := by
  by_cases hb : (50 ≤ tq ∨ 5000 ≤ ov) <;> by_cases hf : (10 ≤ pc) <;>
    refine ⟨fun h1 h2 => ?_, fun h1 h2 => ?_, fun h1 h2 => ?_, fun h1 h2 => ?_⟩ <;>
    first
      | exact absurd h1 (by assumption)
      | exact absurd h2 (by assumption)
      | exact absurd hb (by assumption)
      | exact absurd hf (by assumption)
      | simp [classify_row, hb, hf]

/-- Witness for `classify_row_precedence`: the four example rows of the
spec (§8) land in the stated categories. -/
theorem classify_row_precedence_witness :
    classify_row 60 12 0 = "both" ∧
    classify_row 10 1 6000 = "bulk_buyer" ∧
    classify_row 0 15 0 = "frequent_customer" ∧
    classify_row 5 2 100 = "regular" := by
  refine ⟨?_, ?_, ?_, ?_⟩
  · exact (classify_row_precedence 60 12 0).1 (Or.inl (by norm_num)) (by norm_num)
  · exact (classify_row_precedence 10 1 6000).2.1 (Or.inr (by norm_num)) (by norm_num)
  · exact (classify_row_precedence 0 15 0).2.2.1 (by push_neg; constructor <;> norm_num) (by norm_num)
  · exact (classify_row_precedence 5 2 100).2.2.2 (by push_neg; constructor <;> norm_num)
      (by norm_num)

/-- Auxiliary: looking up `c` in a key-tagged map of `ds` finds `f c` exactly
when `c ∈ ds`. -/
theorem lookup_map_key (f : String → ℕ) (ds : List String) (c : String) :
    (ds.map (fun v => (v, f v))).lookup c = if c ∈ ds then some (f c) else none := by
  induction ds with
  | nil => simp
  | cons d ds ih =>
    by_cases h : c = d
    · subst h; simp [List.lookup]
    · have hbeq : (c == d) = false := beq_eq_false_iff_ne.mpr h
      simp [List.lookup, hbeq, ih, h]

/-- C2 counterexample: for the single row (0, 0, 0) (classified "regular"),
the counts mapping returned by `classify_customers` has no entry at all for
"bulk_buyer" (nor the other absent categories) — zero-count categories are
omitted, not reported as 0. -/
theorem classifications_omit_zero_counts :
    ¬ (∀ cat ∈ ["bulk_buyer", "frequent_customer", "both", "regular"],
        ((classify_customers [⟨0, 0, 0⟩]).2.lookup cat).isSome = true) := by
  decide

/-- C2 amended: the counts mapping contains exactly the categories that
occur in at least one classified row, each mapped to its row count;
categories that occur in no row are omitted from the mapping (no entry),
rather than being reported with count 0. -/
theorem classifications_exactly_occurring (rows : List CanonRow) (cat : String) :
    (cat ∈ (classify_customers rows).1.map Prod.snd →
      (classify_customers rows).2.lookup cat =
        some (((classify_customers rows).1.map Prod.snd).count cat)) ∧
    (cat ∉ (classify_customers rows).1.map Prod.snd →
      (classify_customers rows).2.lookup cat = none) := by
  constructor <;> intro h <;>
    simp [classify_customers, value_counts, lookup_map_key, List.mem_dedup] at h ⊢ <;>
    exact h

/-- Witness for `classifications_exactly_occurring` at the single row
(60, 12, 0), classified "both": the occurring category has count 1 and an
absent category has no entry. -/
theorem classifications_exactly_occurring_witness :
    (classify_customers [⟨60, 12, 0⟩]).2.lookup "both" = some 1 ∧
    (classify_customers [⟨60, 12, 0⟩]).2.lookup "bulk_buyer" = none := by
  constructor
  · exact ((classifications_exactly_occurring [⟨60, 12, 0⟩] "both").1 (by decide)).trans
      (by decide)
  · exact (classifications_exactly_occurring [⟨60, 12, 0⟩] "bulk_buyer").2 (by decide)

/-- A dataframe after the format-specific read: a header row of column
labels (duplicates possible) and data rows of cells, positionally aligned
with the header. -/
structure Df where
  cols : List String
  rows : List (List PyVal)
  deriving DecidableEq

/-- ASCII lower-casing of one character (Python `str.lower` restricted to
ASCII; no header in the claims uses non-ASCII letters). -/
def lowerChar (c : Char) : Char :=
  if 'A' ≤ c ∧ c ≤ 'Z' then Char.ofNat (c.toNat + 32) else c

/-- Python `str`-level whitespace (`\s` in an ASCII pattern, and the
characters `str.strip()` removes): space, tab, newline, carriage return,
vertical tab, form feed. -/
def isPySpace (c : Char) : Bool :=
  c == ' ' || c == '\t' || c == '\n' || c == '\r' || c == '\x0b' || c == '\x0c'

/-- Python `str.strip()`: drop whitespace from both ends. -/
def pyStrip (cs : List Char) : List Char :=
  ((cs.dropWhile isPySpace).reverse.dropWhile isPySpace).reverse

/-- Header transform of classifier.py line 76:
`.str.lower().str.strip().str.replace(' ', '_')`. -/
def transformHeader (h : String) : String :=
  ⟨(pyStrip (h.data.map lowerChar)).map (fun c => if c = ' ' then '_' else c)⟩

/-- `column_mapping` of classifier.py lines 79-94. -/
def column_mapping : List (String × String) :=
  [("customer_name", "name"), ("customer", "name"), ("full_name", "name"),
   ("phone_number", "phone"), ("mobile", "phone"), ("contact", "phone"),
   ("email_address", "email"),
   ("quantity", "total_quantity"), ("qty", "total_quantity"),
   ("orders", "purchase_count"), ("order_count", "purchase_count"),
   ("amount", "order_value"), ("total_amount", "order_value"),
   ("value", "order_value")]

/-- `df.rename(columns=column_mapping)` acts on each header label
independently: a label that is a key of the mapping is replaced, any other
label is kept. -/
def renameColumn (c : String) : String :=
  (column_mapping.lookup c).getD c

/-- The header labels after the transform of line 76 and the rename of
line 96. -/
def mappedCols (cols : List String) : List String :=
  cols.map (fun c => renameColumn (transformHeader c))

/-- `required_cols` of classifier.py line 99. -/
def required_cols : List String := ["name", "phone"]

/-- Characters removed from phone values by
`str.replace(r'[\s\-\(\)]', '', regex=True)` (classifier.py line 110):
ASCII whitespace, hyphen and parentheses. -/
def isPhoneStrippedChar (c : Char) : Bool :=
  c == ' ' || c == '\t' || c == '\n' || c == '\r' ||
    c == '\x0b' || c == '\x0c' || c == '-' || c == '(' || c == ')'

/-- Phone sanitization (classifier.py line 110): delete every whitespace,
hyphen and parenthesis character; all other characters are kept in order. -/
def cleanPhone (s : String) : String :=
  ⟨s.data.filter (fun c => !isPhoneStrippedChar c)⟩

/-- Python `str()` of a cell, as applied by `.astype(str)` before phone
cleaning and by the document builder.  Exact float formatting is not
modelled (`ℚ`'s `toString` stands in); no claim below stringifies a
numeric value. -/
def pyStr : PyVal → String
  | .str s => s
  | .num q => toString q

/-- Apply `f` to the cells of every column labelled `target`
(`df['phone'] = ...` writes through every column with that label). -/
def mapCol (cols : List String) (target : String) (f : PyVal → PyVal)
    (row : List PyVal) : List PyVal :=
  (cols.zip row).map (fun p => if p.1 = target then f p.2 else p.2)

/-- `df[c] = v` when column `c` is absent: append the label and give the
constant value `v` to every row; when present this back-fill is not
executed (classifier.py lines 112-123 guard each assignment with
`if c not in df.columns`). -/
def addCol (df : Df) (c : String) (v : PyVal) : Df :=
  if c ∈ df.cols then df else ⟨df.cols ++ [c], df.rows.map (fun r => r ++ [v])⟩

/-- The default back-fill of classifier.py lines 112-123, in source order:
`email` → `''`, `total_quantity` → `0`, `purchase_count` → `1`,
`order_value` → `0`. -/
def fillDefaults (df : Df) : Df :=
  addCol (addCol (addCol (addCol df "email" (.str "")) "total_quantity" (.num 0))
    "purchase_count" (.num 1)) "order_value" (.num 0)

/-- Typed parse failure.  `missingRequiredColumns` carries the missing
required names and the full set of columns found (classifier.py
lines 102-106). -/
inductive ParseError
  | missingRequiredColumns (missing : List String) (available : List String)
  deriving DecidableEq

/-- `', '.join(l)`. -/
def joinComma : List String → String
  | [] => ""
  | [s] => s
  | s :: rest => s ++ ", " ++ joinComma rest

/-- The `ValueError` message raised at classifier.py lines 103-106. -/
def renderError : ParseError → String
  | .missingRequiredColumns missing available =>
      "Missing required columns: " ++ joinComma missing ++
        ". Available columns: " ++ joinComma available

/-- The normalization stage of `parse_csv_file` (classifier.py lines
76-125), applied to the dataframe produced by the format-specific reader:
header transform, synonym rename, required-column validation, phone
sanitization, default back-fill. -/
def parse_csv_file (df : Df) : Except ParseError Df :=
  let cols1 := mappedCols df.cols
  let missing := required_cols.filter (fun c => decide (c ∉ cols1))
  if missing = [] then
    let rows1 := df.rows.map (mapCol cols1 "phone" (fun v => .str (cleanPhone (pyStr v))))
    .ok (fillDefaults ⟨cols1, rows1⟩)
  else
    .error (.missingRequiredColumns missing cols1)

/-- C4: whenever `name` or `phone` is absent from the transformed and
synonym-mapped header, normalization fails with `MissingRequiredColumns`;
the error carries exactly the required names that are absent, together
with the full mapped column set, and its rendered message lists both. -/
theorem missing_required_columns_error (df : Df)
    (h : "name" ∉ mappedCols df.cols ∨ "phone" ∉ mappedCols df.cols) :
    parse_csv_file df =
      .error (.missingRequiredColumns
        (required_cols.filter (fun c => decide (c ∉ mappedCols df.cols)))
        (mappedCols df.cols)) ∧
    (∀ c ∈ required_cols,
      (c ∈ required_cols.filter (fun c2 => decide (c2 ∉ mappedCols df.cols)) ↔
        c ∉ mappedCols df.cols)) ∧
    renderError (.missingRequiredColumns
        (required_cols.filter (fun c => decide (c ∉ mappedCols df.cols)))
        (mappedCols df.cols)) =
      "Missing required columns: " ++
        joinComma (required_cols.filter (fun c => decide (c ∉ mappedCols df.cols))) ++
        ". Available columns: " ++ joinComma (mappedCols df.cols) := by
  refine ⟨?_, ?_, rfl⟩
  · have hmem : ∃ c ∈ required_cols,
        c ∈ required_cols.filter (fun c2 => decide (c2 ∉ mappedCols df.cols)) := by
      rcases h with h | h
      · exact ⟨"name", by simp [required_cols], by simp [required_cols, h]⟩
      · exact ⟨"phone", by simp [required_cols], by simp [required_cols, h]⟩
    obtain ⟨c, -, hc⟩ := hmem
    have hne : required_cols.filter (fun c2 => decide (c2 ∉ mappedCols df.cols)) ≠ [] :=
      List.ne_nil_of_mem hc
    simp only [parse_csv_file, hne, if_false, reduceIte]
  · intro c hc
    simp [List.mem_filter, hc]

/-- Witness for `missing_required_columns_error`: the spec's example file
with only `email,amount` columns fails with missing = [name, phone] and
found = [email, order_value]. -/
theorem missing_required_columns_error_witness :
    parse_csv_file ⟨["email", "amount"], []⟩ =
      .error (.missingRequiredColumns ["name", "phone"] ["email", "order_value"]) ∧
    renderError (.missingRequiredColumns ["name", "phone"] ["email", "order_value"]) =
      "Missing required columns: name, phone. Available columns: email, order_value" := by
  constructor
  · exact ((missing_required_columns_error ⟨["email", "amount"], []⟩
      (Or.inl (by decide))).1).trans (by decide)
  · decide

/-- Auxiliary: a character kept by the claim ('+' or a digit) is never one
of the characters the phone sanitizer strips. -/
theorem kept_not_stripped (c : Char) (hc : (c == '+' || c.isDigit) = true) :
    isPhoneStrippedChar c = false := by
  rcases (by simpa using hc : c = '+' ∨ c.isDigit = true) with h | h
  · subst h; decide
  · unfold isPhoneStrippedChar
    have f : ∀ x : Char, x.isDigit = false → (c == x) = false := by
      intro x hx
      cases hcx : (c == x) with
      | false => rfl
      | true =>
        have hc2 : c = x := by simpa using hcx
        subst hc2
        rw [h] at hx
        cases hx
    rw [f ' ' (by decide), f '\t' (by decide), f '\n' (by decide), f '\r' (by decide),
      f '\x0b' (by decide), f '\x0c' (by decide), f '-' (by decide), f '(' (by decide),
      f ')' (by decide)]
    rfl

/-- Auxiliary: stripping whitespace/hyphens/parentheses leaves the
subsequence of '+' signs and digits untouched. -/
theorem filter_kept_cleanPhone (l : List Char) :
    (l.filter (fun c => !isPhoneStrippedChar c)).filter (fun c => c == '+' || c.isDigit) =
      l.filter (fun c => c == '+' || c.isDigit) := by
  induction l with
  | nil => rfl
  | cons c cs ih =>
    by_cases hs : isPhoneStrippedChar c = true
    · have hk : (c == '+' || c.isDigit) = false := by
        cases hkeep : (c == '+' || c.isDigit) with
        | false => rfl
        | true => rw [kept_not_stripped c hkeep] at hs; cases hs
      simp [List.filter_cons, hs, hk, ih]
    · have hs2 : isPhoneStrippedChar c = false := by
        cases hval : isPhoneStrippedChar c with
        | false => rfl
        | true => exact absurd hval hs
      simp [List.filter_cons, hs2, ih]

/-- C5: phone sanitization removes every whitespace, hyphen and
parenthesis character, leaves the subsequence of '+' signs and digits
unchanged (in particular leading '+' and all digits), and maps the spec's
example "(555) 123-4567" to "5551234567". -/
theorem phone_sanitization (s : String) :
    (∀ c ∈ (cleanPhone s).data, isPhoneStrippedChar c = false) ∧
    (cleanPhone s).data.filter (fun c => c == '+' || c.isDigit) =
      s.data.filter (fun c => c == '+' || c.isDigit) ∧
    cleanPhone "(555) 123-4567" = "5551234567" := by
  refine ⟨?_, ?_, by decide⟩
  · intro c hcmem
    have hcmem2 : c ∈ s.data.filter (fun c => !isPhoneStrippedChar c) := hcmem
    have hmem2 : (!isPhoneStrippedChar c) = true := (List.mem_filter.mp hcmem2).2
    simpa using hmem2
  · simpa [cleanPhone] using filter_kept_cleanPhone s.data

/-- Witness for `phone_sanitization` at the spec's example input. -/
theorem phone_sanitization_witness :
    cleanPhone "(555) 123-4567" = "5551234567" ∧ isPhoneStrippedChar '5' = false := by
  refine ⟨(phone_sanitization "(555) 123-4567").2.2, ?_⟩
  exact (phone_sanitization "(555) 123-4567").1 '5' (by decide)

/-- Value of a list of decimal digits. -/
def digitsVal (cs : List Char) : ℕ :=
  cs.foldl (fun acc c => 10 * acc + (c.toNat - 48)) 0

/-- Unsigned plain decimal literal accepted by Python `float()`: digits
with an optional decimal point ("7", "7.", "7.25", ".5").  Exponents,
`inf` and `nan` are not modelled; the claims exercise plain literals and
clearly non-numeric strings only. -/
def parseUnsignedFloat? (cs : List Char) : Option ℚ :=
  let intPart := cs.takeWhile Char.isDigit
  let rest := cs.dropWhile Char.isDigit
  match rest with
  | [] => if intPart.isEmpty then none else some (digitsVal intPart)
  | '.' :: frac =>
      if frac.all Char.isDigit && (!intPart.isEmpty || !frac.isEmpty) then
        some ((digitsVal intPart : ℚ) + (digitsVal frac : ℚ) / (10 : ℚ) ^ frac.length)
      else none
  | _ => none

/-- Python `float()` string grammar with an optional leading sign. -/
def parseFloatLit? (cs : List Char) : Option ℚ :=
  match cs with
  | '+' :: rest => parseUnsignedFloat? rest
  | '-' :: rest => (parseUnsignedFloat? rest).map (fun q => -q)
  | _ => parseUnsignedFloat? cs

/-- Python `int()` string grammar: optional sign, then only digits. -/
def parseIntLit? (cs : List Char) : Option ℤ :=
  match cs with
  | '+' :: rest =>
      if !rest.isEmpty && rest.all Char.isDigit then some (digitsVal rest) else none
  | '-' :: rest =>
      if !rest.isEmpty && rest.all Char.isDigit then some (-(digitsVal rest : ℤ)) else none
  | _ => if !cs.isEmpty && cs.all Char.isDigit then some (digitsVal cs) else none

/-- Truncation toward zero, Python `int()` applied to a float. -/
def ratTrunc (q : ℚ) : ℤ := if 0 ≤ q then ⌊q⌋ else ⌈q⌉

/-- Python `float(v)` as used at customer_service.py lines 55 and 57:
numbers pass through; strings are parsed as decimal literals after
stripping surrounding whitespace; a non-numeric string raises
`ValueError` (it is NOT treated as 0). -/
def pyFloat : PyVal → Except String ℚ
  | .num q => .ok q
  | .str s =>
      match parseFloatLit? (pyStrip s.data) with
      | some q => .ok q
      | none => .error ("could not convert string to float: " ++ s)

/-- Python `int(v)` as used at customer_service.py line 56: numbers
truncate toward zero; strings must be integer literals; a non-numeric
string raises `ValueError` (it is NOT treated as 1). -/
def pyInt : PyVal → Except String ℤ
  | .num q => .ok (ratTrunc q)
  | .str s =>
      match parseIntLit? (pyStrip s.data) with
      | some n => .ok n
      | none => .error ("invalid literal for int: " ++ s)

/-- Insert-or-overwrite for a Python dict kept as an ordered association
list: an existing key keeps its position and takes the new value, a new
key is appended at the end. -/
def upsert : List (String × PyVal) → String × PyVal → List (String × PyVal)
  | [], p => [p]
  | q :: rest, p => if q.1 = p.1 then p :: rest else q :: upsert rest p

/-- `row.to_dict()` (customer_service.py line 45): pair each column label
with the row's cell in order; a duplicated label silently keeps only the
last value. -/
def rowToDict (cols : List String) (row : List PyVal) : List (String × PyVal) :=
  (cols.zip row).foldl upsert []

/-- Python `str.strip()` on a string. -/
def pyStripStr (s : String) : String := ⟨pyStrip s.data⟩

/-- The canonical fields of the customer document built at
customer_service.py lines 48-60.  `id` (uuid4), `user_id`, `uploaded_at`
(clock), `source_file` and the optional file reference are
environment-supplied and not part of any claim checked here;
`custom_fields` extraction is modelled by `rowToDict` directly. -/
structure CustomerDoc where
  name : String
  phone : String
  email : String
  category : String
  total_quantity : ℚ
  purchase_count : ℤ
  order_value : ℚ
  deriving DecidableEq

/-- The per-row document construction of
`customer_service.py::upload_customers` lines 48-60: string fields are
`str(..).strip()`-ed, `category` defaults to "regular", and the numeric
fields are coerced with `float`/`int` in source order — the first failing
coercion raises and aborts the upload. -/
def build_customer_doc (d : List (String × PyVal)) : Except String CustomerDoc := do
  let tq ← pyFloat ((d.lookup "total_quantity").getD (.num 0))
  let pc ← pyInt ((d.lookup "purchase_count").getD (.num 1))
  let ov ← pyFloat ((d.lookup "order_value").getD (.num 0))
  .ok { name := pyStripStr (pyStr ((d.lookup "name").getD (.str "")))
      , phone := pyStripStr (pyStr ((d.lookup "phone").getD (.str "")))
      , email := pyStripStr (pyStr ((d.lookup "email").getD (.str "")))
      , category := pyStr ((d.lookup "category").getD (.str "regular"))
      , total_quantity := tq, purchase_count := pc, order_value := ov }

/-- What `row.get(key, default)` yields on a pandas row: the default when
no column bears the label, the cell when exactly one does, and a
sub-Series when the label is duplicated. -/
inductive CellGet
  | missing
  | one (v : PyVal)
  | many
  deriving DecidableEq

/-- `row.get(k, default)` over the positionally aligned header/cells. -/
def getCell (cols : List String) (row : List PyVal) (k : String) : CellGet :=
  match (cols.zip row).filterMap (fun p => if p.1 = k then some p.2 else none) with
  | [] => .missing
  | [v] => .one v
  | _ => .many

/-- `row.get(k, dflt) >= thr` as evaluated in a Python boolean context
inside `classify_row` (classifier.py lines 36-37): a missing column
compares the default, a numeric cell compares numerically, a string cell
raises `TypeError` at the comparison, and a duplicated label yields a
Series whose boolean coercion raises `ValueError` (the comparison itself
is elementwise; the model reports the error at the point the truth value
is needed, which for every path through `classify_row` is before the
function returns — the claims only exercise numeric duplicated cells). -/
def pyTruthGE (g : CellGet) (dflt thr : ℚ) : Except String Bool :=
  match g with
  | .missing => .ok (decide (thr ≤ dflt))
  | .one (.num q) => .ok (decide (thr ≤ q))
  | .one (.str _) =>
      .error "TypeError: >= not supported between instances of str and int"
  | .many => .error "ValueError: The truth value of a Series is ambiguous"

/-- `classify_row` (classifier.py lines 35-46) as `df.apply` executes it
on raw dataframe cells: `is_bulk = (tq >= 50) or (ov >= 5000)` with
Python's short-circuit (the right operand is not evaluated when the left
is truthy), then `is_frequent = pc >= 10`, then the precedence chain. -/
def classifyCell (cols : List String) (row : List PyVal) : Except String String := do
  let b1 ← pyTruthGE (getCell cols row "total_quantity") 0 50
  let isBulk ← if b1 then pure true else pyTruthGE (getCell cols row "order_value") 0 5000
  let isFrequent ← pyTruthGE (getCell cols row "purchase_count") 0 10
  pure (if isBulk && isFrequent then "both"
        else if isBulk then "bulk_buyer"
        else if isFrequent then "frequent_customer"
        else "regular")

/-- `df[c] = vals` with one value per row: overwrite an existing column in
place, or append a new one. -/
def setCol (df : Df) (c : String) (vals : List PyVal) : Df :=
  if c ∈ df.cols then
    ⟨df.cols, (df.rows.zip vals).map (fun p => mapCol df.cols c (fun _ => p.2) p.1)⟩
  else
    ⟨df.cols ++ [c], (df.rows.zip vals).map (fun p => p.1 ++ [p.2])⟩

/-- `classify_customers` (classifier.py lines 14-53) on a normalized
dataframe: compute every row's category (`df.apply` propagates the first
exception), append the `category` column, and count the categories.  The
back-fill of lines 25-32 is a no-op here because `parse_csv_file`
guarantees the three numeric columns exist. -/
def classify_customers_df (df : Df) : Except String (Df × List (String × ℕ)) := do
  let cats ← df.rows.mapM (classifyCell df.cols)
  pure (setCol df "category" (cats.map PyVal.str), value_counts cats)

/-- `CustomerService.upload_customers` after the parse (customer_service.py
lines 39-79): classification runs FIRST (line 39), and only then the
per-row `to_dict()` + document build loop (lines 43-79). -/
def upload_customers_service (df : Df) :
    Except String (List CustomerDoc × List (String × ℕ)) := do
  let r ← classify_customers_df df
  let docs ← r.1.rows.mapM (fun row => build_customer_doc (rowToDict r.1.cols row))
  pure (docs, r.2)

/-- The full post-read pipeline of one upload: normalization
(customer_service.py line 36), then classification, then document build. -/
def process_upload (df : Df) : Except String (List CustomerDoc × List (String × ℕ)) :=
  match parse_csv_file df with
  | .error e => .error (renderError e)
  | .ok df1 => upload_customers_service df1

/-- C3 counterexample: a CSV whose `total_quantity` value is the
non-numeric string "abc" does not get 0 — the upload fails.  The failure
comes from the classification stage, which runs before the document
build: `df.apply(classify_row)` evaluates `'abc' >= 50` and raises
`TypeError`, so `float()` never even sees the value. -/
theorem nonnumeric_quantity_not_zero :
    process_upload ⟨["name", "phone", "total_quantity"],
        [[.str "a", .str "1", .str "abc"]]⟩ =
      .error "TypeError: >= not supported between instances of str and int" := by
  decide

/-- Rows positionally aligned with the header. -/
def Df.aligned (df : Df) : Prop := ∀ r ∈ df.rows, r.length = df.cols.length

instance (df : Df) : Decidable df.aligned :=
  decidable_of_iff (∀ r ∈ df.rows, r.length = df.cols.length) Iff.rfl

/-- Auxiliary: overwriting key `k` makes lookup of `k` find the new value. -/
theorem upsert_lookup_self (d : List (String × PyVal)) (k : String) (v : PyVal) :
    (upsert d (k, v)).lookup k = some v := by
  induction d with
  | nil => simp [upsert, List.lookup]
  | cons q rest ih =>
    obtain ⟨a, b⟩ := q
    by_cases h : a = k
    · simp [upsert, h, List.lookup]
    · have hbeq : (k == a) = false := beq_eq_false_iff_ne.mpr (Ne.symm h)
      simp [upsert, h, List.lookup, hbeq, ih]

/-- Auxiliary: overwriting key `k` leaves lookups of other keys unchanged. -/
theorem upsert_lookup_ne (d : List (String × PyVal)) (k k2 : String) (v : PyVal)
    (h : k2 ≠ k) : (upsert d (k, v)).lookup k2 = d.lookup k2 := by
  induction d with
  | nil => simp [upsert, List.lookup, beq_eq_false_iff_ne.mpr h]
  | cons q rest ih =>
    obtain ⟨a, b⟩ := q
    by_cases ha : a = k
    · subst ha
      simp [upsert, List.lookup, beq_eq_false_iff_ne.mpr h]
    · by_cases h2 : k2 = a
      · subst h2
        simp [upsert, ha, List.lookup]
      · have hbeq : (k2 == a) = false := beq_eq_false_iff_ne.mpr h2
        simp [upsert, ha, List.lookup, hbeq, ih]

/-- Auxiliary: building the dict of a row extended by one labelled cell is
an overwrite-or-append on the dict of the original row. -/
theorem rowToDict_append (cs : List String) (rs : List PyVal) (c : String) (v : PyVal)
    (hlen : cs.length = rs.length) :
    rowToDict (cs ++ [c]) (rs ++ [v]) = upsert (rowToDict cs rs) (c, v) := by
  unfold rowToDict
  rw [List.zip_append hlen, List.foldl_append]
  rfl

/-- Auxiliary: `addCol` preserves row/header alignment. -/
theorem aligned_addCol (df : Df) (c : String) (v : PyVal) (h : df.aligned) :
    (addCol df c v).aligned := by
  by_cases hc : c ∈ df.cols
  · simpa [Df.aligned, addCol, hc] using h
  · intro r hr
    simp only [addCol, if_neg hc] at hr ⊢
    obtain ⟨r0, hr0, rfl⟩ := List.mem_map.mp hr
    simp [h r0 hr0]

/-- Auxiliary: where a row of `addCol df c v` comes from. -/
theorem addCol_mem_rows (df : Df) (c : String) (v : PyVal) (row : List PyVal)
    (hrow : row ∈ (addCol df c v).rows) :
    (c ∈ df.cols ∧ row ∈ df.rows) ∨
      (c ∉ df.cols ∧ ∃ r0 ∈ df.rows, row = r0 ++ [v]) := by
  by_cases hc : c ∈ df.cols
  · exact Or.inl ⟨hc, by simpa [addCol, hc] using hrow⟩
  · right
    refine ⟨hc, ?_⟩
    simp only [addCol, if_neg hc] at hrow
    obtain ⟨r0, hr0, rfl⟩ := List.mem_map.mp hrow
    exact ⟨r0, hr0, rfl⟩

/-- Auxiliary: the dict of a row of `addCol df c v`, in terms of a dict of
an original row of `df`. -/
theorem addCol_dict (df : Df) (c : String) (v : PyVal) (hal : df.aligned)
    (row : List PyVal) (hrow : row ∈ (addCol df c v).rows) :
    ∃ r0 ∈ df.rows,
      rowToDict (addCol df c v).cols row =
        if c ∈ df.cols then rowToDict df.cols r0
        else upsert (rowToDict df.cols r0) (c, v) := by
  rcases addCol_mem_rows df c v row hrow with ⟨hc, hmem⟩ | ⟨hc, r0, hr0, rfl⟩
  · exact ⟨row, hmem, by simp [addCol, hc]⟩
  · refine ⟨r0, hr0, ?_⟩
    rw [if_neg hc]
    have hcols : (addCol df c v).cols = df.cols ++ [c] := by simp [addCol, hc]
    rw [hcols, rowToDict_append df.cols r0 c v (hal r0 hr0).symm]

/-- Auxiliary: lookups of a key different from the added column pass
through one `addCol` step. -/
theorem addCol_lookup_ne (df : Df) (c : String) (v : PyVal) (K : String)
    (hal : df.aligned) (hne : c ≠ K) (row : List PyVal)
    (hrow : row ∈ (addCol df c v).rows) :
    ∃ r0 ∈ df.rows,
      (rowToDict (addCol df c v).cols row).lookup K =
        (rowToDict df.cols r0).lookup K := by
  obtain ⟨r0, hr0, hd⟩ := addCol_dict df c v hal row hrow
  refine ⟨r0, hr0, ?_⟩
  rw [hd]
  by_cases hc : c ∈ df.cols
  · rw [if_pos hc]
  · rw [if_neg hc, upsert_lookup_ne _ _ _ _ (Ne.symm hne)]

/-- Auxiliary: when the added column was absent, every row of the result
looks up the added column to the default value. -/
theorem addCol_lookup_new (df : Df) (c : String) (v : PyVal) (hal : df.aligned)
    (hc : c ∉ df.cols) (row : List PyVal) (hrow : row ∈ (addCol df c v).rows) :
    (rowToDict (addCol df c v).cols row).lookup c = some v := by
  obtain ⟨r0, hr0, hd⟩ := addCol_dict df c v hal row hrow
  rw [hd, if_neg hc, upsert_lookup_self]

/-- Auxiliary: a key absent from the header stays absent when a different
column is added. -/
theorem addCol_not_mem_cols (df : Df) (c : String) (v : PyVal) (K : String)
    (hK : K ∉ df.cols) (hne : K ≠ c) : K ∉ (addCol df c v).cols := by
  by_cases hc : c ∈ df.cols <;> simp [addCol, hc, hK, hne]

/-- Auxiliary: the phone-cleaned dataframe built inside `parse_csv_file`
is aligned whenever the input dataframe is. -/
theorem cleaned_aligned (df : Df) (hal : df.aligned) (f : PyVal → PyVal) :
    (Df.mk (mappedCols df.cols)
      (df.rows.map (mapCol (mappedCols df.cols) "phone" f))).aligned := by
  intro r hr
  obtain ⟨r0, hr0, rfl⟩ := List.mem_map.mp hr
  have h0 := hal r0 hr0
  have hlen : (mappedCols df.cols).length = df.cols.length := List.length_map _ _
  simp only [mapCol, List.length_map, List.length_zip]
  omega

/-- Auxiliary: after the default back-fill, every row's dict maps each
canonical optional column that was absent from the input header to its
default value. -/
theorem fillDefaults_lookups (d1 : Df) (a1 : d1.aligned) (row : List PyVal)
    (hrow : row ∈ (fillDefaults d1).rows) :
    ("email" ∉ d1.cols →
      (rowToDict (fillDefaults d1).cols row).lookup "email" = some (.str "")) ∧
    ("total_quantity" ∉ d1.cols →
      (rowToDict (fillDefaults d1).cols row).lookup "total_quantity" = some (.num 0)) ∧
    ("purchase_count" ∉ d1.cols →
      (rowToDict (fillDefaults d1).cols row).lookup "purchase_count" = some (.num 1)) ∧
    ("order_value" ∉ d1.cols →
      (rowToDict (fillDefaults d1).cols row).lookup "order_value" = some (.num 0)) := by
  have a2 := aligned_addCol d1 "email" (.str "") a1
  have a3 := aligned_addCol _ "total_quantity" (.num 0) a2
  have a4 := aligned_addCol _ "purchase_count" (.num 1) a3
  simp only [fillDefaults] at hrow ⊢
  refine ⟨fun h => ?_, fun h => ?_, fun h => ?_, fun h => ?_⟩
  · obtain ⟨r4, hr4, e4⟩ := addCol_lookup_ne _ "order_value" (.num 0) "email" a4
      (by decide) row hrow
    obtain ⟨r3, hr3, e3⟩ := addCol_lookup_ne _ "purchase_count" (.num 1) "email" a3
      (by decide) r4 hr4
    obtain ⟨r2, hr2, e2⟩ := addCol_lookup_ne _ "total_quantity" (.num 0) "email" a2
      (by decide) r3 hr3
    rw [e4, e3, e2]
    exact addCol_lookup_new d1 "email" (.str "") a1 h r2 hr2
  · obtain ⟨r4, hr4, e4⟩ := addCol_lookup_ne _ "order_value" (.num 0) "total_quantity" a4
      (by decide) row hrow
    obtain ⟨r3, hr3, e3⟩ := addCol_lookup_ne _ "purchase_count" (.num 1) "total_quantity" a3
      (by decide) r4 hr4
    rw [e4, e3]
    exact addCol_lookup_new _ "total_quantity" (.num 0) a2
      (addCol_not_mem_cols d1 "email" (.str "") _ h (by decide)) r3 hr3
  · obtain ⟨r4, hr4, e4⟩ := addCol_lookup_ne _ "order_value" (.num 0) "purchase_count" a4
      (by decide) row hrow
    rw [e4]
    exact addCol_lookup_new _ "purchase_count" (.num 1) a3
      (addCol_not_mem_cols _ "total_quantity" (.num 0) _
        (addCol_not_mem_cols d1 "email" (.str "") _ h (by decide)) (by decide)) r4 hr4
  · exact addCol_lookup_new _ "order_value" (.num 0) a4
      (addCol_not_mem_cols _ "purchase_count" (.num 1) _
        (addCol_not_mem_cols _ "total_quantity" (.num 0) _
          (addCol_not_mem_cols d1 "email" (.str "") _ h (by decide)) (by decide))
        (by decide)) row hrow

/-- C3 amended: normalization back-fills absent columns with the defaults
(absent `email` → "", `total_quantity` → 0, `purchase_count` → 1,
`order_value` → 0), so every normalized row carries all canonical fields.
Non-numeric strings are never silently coerced to 0 resp. 1 — the upload
fails instead: a non-numeric `total_quantity` or `purchase_count` (and a
non-numeric `order_value` when `total_quantity < 50`) makes the `>=`
comparison inside the classification stage raise `TypeError`; a
non-numeric `order_value` that survives classification because
`total_quantity >= 50` short-circuits the `or` reaches the document
build, where `float()` raises `ValueError`. -/
theorem defaults_and_coercions (df df2 : Df) (row : List PyVal) (q q2 : ℚ) (s : String)
    (hal : df.aligned) (hok : parse_csv_file df = .ok df2) (hrow : row ∈ df2.rows) :
    ("email" ∉ mappedCols df.cols →
      (rowToDict df2.cols row).lookup "email" = some (.str "")) ∧
    ("total_quantity" ∉ mappedCols df.cols →
      (rowToDict df2.cols row).lookup "total_quantity" = some (.num 0)) ∧
    ("purchase_count" ∉ mappedCols df.cols →
      (rowToDict df2.cols row).lookup "purchase_count" = some (.num 1)) ∧
    ("order_value" ∉ mappedCols df.cols →
      (rowToDict df2.cols row).lookup "order_value" = some (.num 0)) ∧
    (getCell df2.cols row "total_quantity" = .one (.str s) →
      classifyCell df2.cols row =
        .error "TypeError: >= not supported between instances of str and int") ∧
    (getCell df2.cols row "total_quantity" = .one (.num q) →
      getCell df2.cols row "order_value" = .one (.num q2) →
      getCell df2.cols row "purchase_count" = .one (.str s) →
      classifyCell df2.cols row =
        .error "TypeError: >= not supported between instances of str and int") ∧
    (getCell df2.cols row "total_quantity" = .one (.num q) → q < 50 →
      getCell df2.cols row "order_value" = .one (.str s) →
      classifyCell df2.cols row =
        .error "TypeError: >= not supported between instances of str and int") ∧
    ((rowToDict df2.cols row).lookup "total_quantity" = some (.num q) →
      (rowToDict df2.cols row).lookup "purchase_count" = some (.num q2) →
      (rowToDict df2.cols row).lookup "order_value" = some (.str s) →
      parseFloatLit? (pyStrip s.data) = none →
      build_customer_doc (rowToDict df2.cols row) =
        .error ("could not convert string to float: " ++ s)) ∧
    pyFloat (.num q) = .ok q ∧
    pyInt (.num q) = .ok (ratTrunc q) ∧
    (parseFloatLit? (pyStrip s.data) = none →
      pyFloat (.str s) = .error ("could not convert string to float: " ++ s)) ∧
    (parseIntLit? (pyStrip s.data) = none →
      pyInt (.str s) = .error ("invalid literal for int: " ++ s)) ∧
    process_upload ⟨["name", "phone", "total_quantity", "amount"],
        [[.str "a", .str "1", .num 60, .str "abc"]]⟩ =
      .error "could not convert string to float: abc" := by
  simp only [parse_csv_file] at hok
  split at hok
  · rw [Except.ok.injEq] at hok
    subst hok
    have a1 := cleaned_aligned df hal (fun v => PyVal.str (cleanPhone (pyStr v)))
    refine ⟨fun h => (fillDefaults_lookups _ a1 row hrow).1 h,
            fun h => (fillDefaults_lookups _ a1 row hrow).2.1 h,
            fun h => (fillDefaults_lookups _ a1 row hrow).2.2.1 h,
            fun h => (fillDefaults_lookups _ a1 row hrow).2.2.2 h,
            ?_, ?_, ?_, ?_, rfl, rfl,
            fun hpf => by simp [pyFloat, hpf],
            fun hpi => by simp [pyInt, hpi],
            by decide⟩
    · intro h
      unfold classifyCell
      rw [h]
      rfl
    · intro h1 h2 h3
      unfold classifyCell
      rw [h1, h2, h3]
      cases hb : decide ((50 : ℚ) ≤ q) <;> simp [pyTruthGE, hb] <;> rfl
    · intro h1 hq h3
      unfold classifyCell
      rw [h1, h3]
      have hb : decide ((50 : ℚ) ≤ q) = false := decide_eq_false (not_le.mpr hq)
      simp only [pyTruthGE, hb]
      rfl
    · intro h1 h2 h3 h4
      unfold build_customer_doc
      rw [h1, h2, h3]
      have e3 : pyFloat ((some (PyVal.str s)).getD (PyVal.num 0)) =
          .error ("could not convert string to float: " ++ s) := by
        simp [pyFloat, h4]
      rw [e3]
      rfl
  · simp at hok

/-- Witness for `defaults_and_coercions`: the `Name,Phone` file gets the
`email` default back-filled; a parsed row with `total_quantity = "abc"`
fails in the classification stage; a parsed row with
`total_quantity = 60` and `order_value = "abc"` fails at the document
build with the float ValueError, also end-to-end. -/
theorem defaults_and_coercions_witness :
    (rowToDict ["name", "phone", "total_quantity", "email", "purchase_count", "order_value"]
        [.str "a", .str "1", .str "abc", .str "", .num 1, .num 0]).lookup "email" =
      some (.str "") ∧
    classifyCell ["name", "phone", "total_quantity", "email", "purchase_count", "order_value"]
        [.str "a", .str "1", .str "abc", .str "", .num 1, .num 0] =
      .error "TypeError: >= not supported between instances of str and int" ∧
    build_customer_doc
        (rowToDict ["name", "phone", "total_quantity", "order_value", "email", "purchase_count"]
          [.str "a", .str "1", .num 60, .str "abc", .str "", .num 1]) =
      .error "could not convert string to float: abc" ∧
    pyFloat (.num 60) = .ok 60 ∧
    pyFloat (.str "abc") = .error "could not convert string to float: abc" ∧
    pyInt (.str "abc") = .error "invalid literal for int: abc" ∧
    process_upload ⟨["name", "phone", "total_quantity", "amount"],
        [[.str "a", .str "1", .num 60, .str "abc"]]⟩ =
      .error "could not convert string to float: abc" := by
  have ha := defaults_and_coercions
    ⟨["name", "phone", "total_quantity"], [[.str "a", .str "1", .str "abc"]]⟩
    ⟨["name", "phone", "total_quantity", "email", "purchase_count", "order_value"],
      [[.str "a", .str "1", .str "abc", .str "", .num 1, .num 0]]⟩
    [.str "a", .str "1", .str "abc", .str "", .num 1, .num 0] 60 1 "abc"
    (by decide) (by decide) (by decide)
  have hb := defaults_and_coercions
    ⟨["name", "phone", "total_quantity", "amount"], [[.str "a", .str "1", .num 60, .str "abc"]]⟩
    ⟨["name", "phone", "total_quantity", "order_value", "email", "purchase_count"],
      [[.str "a", .str "1", .num 60, .str "abc", .str "", .num 1]]⟩
    [.str "a", .str "1", .num 60, .str "abc", .str "", .num 1] 60 1 "abc"
    (by decide) (by decide) (by decide)
  exact ⟨ha.1 (by decide),
         ha.2.2.2.2.1 (by decide),
         hb.2.2.2.2.2.2.2.1 (by decide) (by decide) (by decide) (by decide),
         hb.2.2.2.2.2.2.2.2.1,
         hb.2.2.2.2.2.2.2.2.2.2.1 (by decide),
         hb.2.2.2.2.2.2.2.2.2.2.2.1 (by decide),
         hb.2.2.2.2.2.2.2.2.2.2.2.2⟩

/-- Auxiliary: a member satisfying `p` gives a positive `countP`. -/
theorem countP_pos_of_mem (p : String → Bool) (l : List String) (b : String)
    (hb : b ∈ l) (hpb : p b = true) : 1 ≤ l.countP p := by
  induction l with
  | nil => cases hb
  | cons x xs ih =>
    rw [List.countP_cons]
    rcases List.mem_cons.mp hb with rfl | hb2
    · simp [hpb]
    · have := ih hb2
      omega

/-- Auxiliary: two distinct members satisfying `p` give `countP ≥ 2`. -/
theorem two_le_countP (p : String → Bool) (l : List String) (a b : String)
    (ha : a ∈ l) (hb : b ∈ l) (hab : a ≠ b) (hpa : p a = true) (hpb : p b = true) :
    2 ≤ l.countP p := by
  obtain ⟨s, t, rfl⟩ := List.append_of_mem ha
  have hb2 : b ∈ s ∨ b ∈ t := by
    rcases List.mem_append.mp hb with h | h
    · exact Or.inl h
    · rcases List.mem_cons.mp h with rfl | h
      · exact absurd rfl hab
      · exact Or.inr h
  rw [List.countP_append, List.countP_cons]
  simp only [hpa, if_true]
  rcases hb2 with h | h
  · have := countP_pos_of_mem p s b h hpb
    omega
  · have := countP_pos_of_mem p t b h hpb
    omega

/-- Auxiliary: two distinct members mapped by `f` to the same value `y`
give `count y ≥ 2` in the image. -/
theorem two_le_count_map (f : String → String) (l : List String) (a b y : String)
    (ha : a ∈ l) (hb : b ∈ l) (hab : a ≠ b) (hfa : f a = y) (hfb : f b = y) :
    2 ≤ (l.map f).count y := by
  have h2 : 2 ≤ l.countP (fun x => f x == y) := by
    refine two_le_countP _ l a b ha hb hab ?_ ?_ <;> simp [hfa, hfb]
  have hc : (l.map f).count y = l.countP (fun x => f x == y) := by
    rw [List.count, List.countP_map]
    rfl
  omega

/-- C10 counterexample: at the claim's own duplicate-canonical example
(`total_quantity` together with its synonym `quantity`), per-row
processing does NOT silently keep one of the duplicate values — the
upload fails loudly before `row.to_dict()` ever runs: `df.apply`
evaluates `row.get('total_quantity', 0) >= 50`, `row.get` returns a
two-element Series, and the `or` forces the Series' boolean coercion,
which raises `ValueError`. -/
theorem duplicate_quantity_fails_loudly :
    process_upload ⟨["name", "phone", "total_quantity", "quantity"],
        [[.str "a", .str "1", .num 5, .num 7]]⟩ =
      .error "ValueError: The truth value of a Series is ambiguous" := by
  decide

/-- C10 amended: the synonym rename is applied per header label
unconditionally, so a file containing a canonical name together with one
of its synonyms ends up with two columns bearing the same canonical name
(at least two occurrences in the mapped header), and normalization itself
succeeds rather than failing, preferring or merging.  What happens to the
duplicate afterwards depends on whether classification references the
column: a duplicated numeric field read by `classify_row` (such as
`total_quantity`) makes the upload fail loudly with the ambiguous-Series
`ValueError`, while a duplicated column that classification never reads
(such as `name` from `customer_name`+`name`) reaches `row.to_dict()`,
which silently keeps only the last of the duplicate values. -/
theorem duplicate_canonical_columns (cols : List String)
    (h1 : "total_quantity" ∈ cols.map transformHeader)
    (h2 : "quantity" ∈ cols.map transformHeader) :
    2 ≤ (mappedCols cols).count "total_quantity" ∧
    parse_csv_file ⟨["name", "phone", "total_quantity", "quantity"],
        [[.str "a", .str "1", .num 5, .num 7]]⟩ =
      .ok ⟨["name", "phone", "total_quantity", "total_quantity", "email",
            "purchase_count", "order_value"],
        [[.str "a", .str "1", .num 5, .num 7, .str "", .num 1, .num 0]]⟩ ∧
    process_upload ⟨["name", "phone", "total_quantity", "quantity"],
        [[.str "a", .str "1", .num 5, .num 7]]⟩ =
      .error "ValueError: The truth value of a Series is ambiguous" ∧
    process_upload ⟨["customer_name", "name", "phone", "orders"],
        [[.str "X", .str "Y", .str "1", .num 2]]⟩ =
      .ok ([⟨"Y", "1", "", "regular", 0, 2, 0⟩], [("regular", 1)]) ∧
    (rowToDict ["name", "name", "phone", "purchase_count", "email",
          "total_quantity", "order_value", "category"]
        [.str "X", .str "Y", .str "1", .num 2, .str "", .num 0, .num 0,
          .str "regular"]).lookup "name" = some (.str "Y") ∧
    (rowToDict ["name", "name", "phone", "purchase_count", "email",
          "total_quantity", "order_value", "category"]
        [.str "X", .str "Y", .str "1", .num 2, .str "", .num 0, .num 0,
          .str "regular"]).countP (fun p => p.1 == "name") = 1 := by
  refine ⟨?_, by decide, by decide, by decide, by decide, by decide⟩
  have hmm : mappedCols cols = (cols.map transformHeader).map renameColumn := by
    simp [mappedCols, List.map_map, Function.comp]
  rw [hmm]
  exact two_le_count_map renameColumn (cols.map transformHeader)
    "total_quantity" "quantity" "total_quantity" h1 h2 (by decide) (by decide) (by decide)

/-- Witness for `duplicate_canonical_columns` at the header
`[total_quantity, quantity]`. -/
theorem duplicate_canonical_columns_witness :
    2 ≤ (mappedCols ["total_quantity", "quantity"]).count "total_quantity" ∧
    process_upload ⟨["name", "phone", "total_quantity", "quantity"],
        [[.str "a", .str "1", .num 5, .num 7]]⟩ =
      .error "ValueError: The truth value of a Series is ambiguous" ∧
    process_upload ⟨["customer_name", "name", "phone", "orders"],
        [[.str "X", .str "Y", .str "1", .num 2]]⟩ =
      .ok ([⟨"Y", "1", "", "regular", 0, 2, 0⟩], [("regular", 1)]) := by
  have h := duplicate_canonical_columns ["total_quantity", "quantity"]
    (by decide) (by decide)
  exact ⟨h.1, h.2.2.1, h.2.2.2.1⟩

/-- Group a character list into maximal runs of whitespace /
non-whitespace characters. -/
def chunkRuns : List Char → List (List Char)
  | [] => []
  | c :: rest =>
    match chunkRuns rest with
    | [] => [[c]]
    | [] :: rs => [c] :: [] :: rs
    | (d :: ds) :: rs =>
        if isPySpace c == isPySpace d then (c :: d :: ds) :: rs
        else [c] :: (d :: ds) :: rs

/-- Whether a maximal run acts as a delimiter for
`re.split(r'\s{2,}|\t', line)`: a whitespace run of length at least 2
(matched greedily by the first alternative), or a single tab (matched by
the second); a single non-tab whitespace character matches neither and
stays inside the token. -/
def isDelimRun (run : List Char) : Bool :=
  match run with
  | [] => false
  | c :: rest => isPySpace c && (!rest.isEmpty || c == '\t')

/-- Fold the runs into tokens, concatenating non-delimiter runs and
splitting at delimiter runs (adjacent delimiters at the ends yield the
empty tokens `re.split` produces). -/
def tokenizeRuns : List (List Char) → List Char → List (List Char)
  | [], cur => [cur]
  | run :: rest, cur =>
    if isDelimRun run then cur :: tokenizeRuns rest []
    else tokenizeRuns rest (cur ++ run)

/-- `re.split(r'\s{2,}|\t', line)` (classifier.py lines 174 and 178). -/
def tokenize (s : String) : List String :=
  (tokenizeRuns (chunkRuns s.data) []).map (fun cs => ⟨cs⟩)

/-- `text.split('\n')`. -/
def splitNewline (cs : List Char) : List (List Char) :=
  cs.foldr
    (fun c acc =>
      match acc with
      | ln :: rest => if c = '\n' then [] :: ln :: rest else (c :: ln) :: rest
      | [] => [[c]])
    [[]]

/-- `[line.strip() for line in text.split('\n') if line.strip()]`
(classifier.py line 168): the non-empty stripped lines, in order. -/
def pdfLines (text : String) : List String :=
  (((splitNewline text.data).map pyStrip).filter (fun l => !l.isEmpty)).map
    (fun cs => ⟨cs⟩)

/-- The text-heuristic PDF fallback (classifier.py lines 161-186): the
first non-empty trimmed line is the header; a later line is kept if and
only if it splits into exactly as many tokens as the header. -/
def pdf_text_fallback (text : String) :
    Except String (List String × List (List String)) :=
  let lines := pdfLines text
  if lines.length < 2 then .error "PDF does not contain enough data"
  else
    match lines with
    | [] => .error "PDF does not contain enough data"
    | l0 :: rest =>
      let header := tokenize l0
      let data := (rest.map tokenize).filter (fun r => r.length = header.length)
      if data.isEmpty then .error "Could not parse PDF data"
      else .ok (header, data)

/-- C6: when the text of a PDF has a first non-empty trimmed line (the
header) and the fallback succeeds, the header is the tokenization of that
first line and the data rows are exactly the tokenizations of the
subsequent lines whose token count equals the header's token count; all
other lines are dropped. -/
theorem pdf_fallback_keeps_matching (text l0 : String) (rest hdr : List String)
    (rows : List (List String))
    (hl : pdfLines text = l0 :: rest)
    (hok : pdf_text_fallback text = .ok (hdr, rows)) :
    hdr = tokenize l0 ∧
    rows = (rest.map tokenize).filter (fun r => r.length = (tokenize l0).length) := by
  simp only [pdf_text_fallback, hl] at hok
  split at hok
  · cases hok
  · split at hok
    · cases hok
    · simp only [Except.ok.injEq, Prod.mk.injEq] at hok
      exact ⟨hok.1.symm, hok.2.symm⟩

/-- Witness for `pdf_fallback_keeps_matching`: the spec's example — a
3-token header line followed by one 3-token line and one 2-token line —
keeps exactly the one matching data row. -/
theorem pdf_fallback_keeps_matching_witness :
    pdfLines "name  qty  val\nalice  3  10\nbob  7" =
      ["name  qty  val", "alice  3  10", "bob  7"] ∧
    pdf_text_fallback "name  qty  val\nalice  3  10\nbob  7" =
      .ok (["name", "qty", "val"], [["alice", "3", "10"]]) ∧
    (["name", "qty", "val"] : List String) = tokenize "name  qty  val" ∧
    ([["alice", "3", "10"]] : List (List String)) =
      (["alice  3  10", "bob  7"].map tokenize).filter
        (fun r => r.length = (tokenize "name  qty  val").length) := by
  have h := pdf_fallback_keeps_matching "name  qty  val\nalice  3  10\nbob  7"
    "name  qty  val" ["alice  3  10", "bob  7"] ["name", "qty", "val"]
    [["alice", "3", "10"]] (by decide) (by decide)
  exact ⟨by decide, by decide, h.1, h.2⟩

/-- What the PDF libraries yield for one uploaded PDF, as consumed by
`_parse_pdf_file` (classifier.py lines 135-192): `primary` is the outcome
of `pdfplumber.open` + per-page `extract_tables` (ok: the raw tables,
each a list of rows; error: any exception raised during that block), and
`text` is the outcome of the text extraction performed inside the
fallback's re-open of the file. -/
structure PdfBehavior where
  primary : Except String (List (List (List String)))
  text : Except String String

/-- Result of `_parse_pdf_file`, tagged by the strategy that produced it.
(`pd.concat`'s column alignment across tables is not modelled: on success
the primary stage returns the kept tables; only which stage produced the
result matters to the claims below.) -/
inductive PdfResult
  | fromTables (tables : List (List (List String)))
  | fromText (header : List String) (rows : List (List String))
  deriving DecidableEq

/-- The primary structured-extraction stage (classifier.py lines 135-157):
keep the tables with a header row and at least one data row
(`len(table) > 1`); if none remain, raise "No tables found in PDF"; an
exception from the library propagates out of the stage. -/
def pdf_primary (b : PdfBehavior) : Except String (List (List (List String))) :=
  match b.primary with
  | .error e => .error e
  | .ok tables =>
      let good := tables.filter (fun t => decide (1 < t.length))
      if good.isEmpty then .error "No tables found in PDF" else .ok good

/-- The message wrapped around any failure inside the fallback
(classifier.py lines 188-192). -/
def wrapPdfError (e : String) : String :=
  "Failed to extract data from PDF: " ++ e ++
    ". Please ensure the PDF contains a table with customer data."

/-- The fallback stage (classifier.py lines 160-192): re-extract the page
text and run the text heuristic; any failure is wrapped. -/
def pdf_fallback (b : PdfBehavior) : Except String PdfResult :=
  match b.text with
  | .error e => .error (wrapPdfError e)
  | .ok t =>
      match pdf_text_fallback t with
      | .error e => .error (wrapPdfError e)
      | .ok (h, rows) => .ok (.fromText h rows)

/-- `_parse_pdf_file` control flow: the whole primary stage sits in a
`try`, and the `except Exception` at line 159 enters the fallback on ANY
exception — both the explicit "No tables found in PDF" raise and any
other extraction error. -/
def parse_pdf_file (b : PdfBehavior) : Except String PdfResult :=
  match pdf_primary b with
  | .ok dfs => .ok (.fromTables dfs)
  | .error _ => pdf_fallback b

/-- Did the parse produce its result via the text heuristic? -/
def usedFallback : Except String PdfResult → Bool
  | .ok (.fromText _ _) => true
  | _ => false

/-- C7 counterexample: it is NOT true that the text heuristic runs only
when the primary pass found zero tables — a primary-stage extraction
error (`primary = error "boom"`, not a zero-table outcome) also lands in
the fallback, which here succeeds and yields a text-heuristic result. -/
theorem fallback_on_extraction_error :
    ¬ (∀ b : PdfBehavior, usedFallback (parse_pdf_file b) = true →
        ∃ tables, b.primary = .ok tables ∧
          (tables.filter (fun t => decide (1 < t.length))).isEmpty = true) := by
  intro h
  obtain ⟨tables, htab, -⟩ :=
    h ⟨.error "boom", .ok "h1  h2\na1  b1"⟩ (by decide)
  exact Except.noConfusion htab

/-- C7 amended: the fallback is entered exactly when the primary stage
raises — whether because zero usable tables were found or because
extraction itself failed; when the primary stage succeeds its tables are
returned and the fallback is not consulted. -/
theorem fallback_iff_primary_error (b : PdfBehavior) :
    (∀ e, pdf_primary b = .error e → parse_pdf_file b = pdf_fallback b) ∧
    (∀ dfs, pdf_primary b = .ok dfs → parse_pdf_file b = .ok (.fromTables dfs)) := by
  constructor <;> intro x hx <;> simp [parse_pdf_file, hx]

/-- Witness for `fallback_iff_primary_error`: an extraction error enters
the fallback; a successful table extraction bypasses it. -/
theorem fallback_iff_primary_error_witness :
    parse_pdf_file ⟨.error "boom", .ok "h1  h2\na1  b1"⟩ =
      pdf_fallback ⟨.error "boom", .ok "h1  h2\na1  b1"⟩ ∧
    parse_pdf_file ⟨.ok [[["h"], ["r"]]], .error "x"⟩ =
      .ok (.fromTables [[["h"], ["r"]]]) := by
  constructor
  · exact (fallback_iff_primary_error _).1 "boom" (by decide)
  · exact (fallback_iff_primary_error _).2 [[["h"], ["r"]]] (by decide)

/-- `allowed_extensions` of routes/customers.py line 42 (a Python set; the
iteration order used in the 400 message is not modelled). -/
def allowed_extensions : List String := [".csv", ".xlsx", ".xls", ".pdf"]

/-- `filename.rsplit('.', 1)[-1]`: everything after the last dot, or the
whole name when there is no dot. -/
def afterLastDot (s : String) : String :=
  ⟨(s.data.reverse.takeWhile (fun c => !(c == '.'))).reverse⟩

/-- `'.' + filename.rsplit('.', 1)[-1].lower()` (routes/customers.py
line 43). -/
def file_ext (filename : String) : String :=
  "." ++ String.mk ((afterLastDot filename).data.map lowerChar)

/-- The 400-class failures of the upload route. -/
inductive RouteError
  | unsupportedFormat (detail : String)
  | emptyFile (detail : String)
  | processingError (detail : String)
  deriving DecidableEq

/-- The upload route's pre-processing checks (routes/customers.py lines
40-61), in source order: extension allow-list, then the zero-length-body
check, and only then the cloud upload + customer processing (abstracted
as `process`, which receives the raw bytes and filename exactly as
`parse_csv_file` does downstream). -/
def upload_customers_route {α : Type} (filename : String) (content : List ℕ)
    (process : List ℕ → String → Except String α) : Except RouteError α :=
  if file_ext filename ∉ allowed_extensions then
    .error (.unsupportedFormat
      ("Unsupported file format. Allowed: " ++ joinComma allowed_extensions))
  else if content.length = 0 then
    .error (.emptyFile "File is empty")
  else
    match process content filename with
    | .ok a => .ok a
    | .error e => .error (.processingError e)

/-- C8: a zero-length upload with a supported extension fails with the
empty-file error, and does so for EVERY downstream processor — i.e.
before any format-specific parsing is attempted. -/
theorem empty_file_rejected_before_parse {α : Type} (filename : String)
    (process : List ℕ → String → Except String α)
    (hext : file_ext filename ∈ allowed_extensions) :
    upload_customers_route filename [] process = .error (.emptyFile "File is empty") := by
  simp [upload_customers_route, hext]

/-- Witness for `empty_file_rejected_before_parse` at `x.csv` with a
processor that would accept anything. -/
theorem empty_file_rejected_before_parse_witness :
    upload_customers_route "x.csv" []
        (fun content filename => Except.ok (content.length + filename.length)) =
      .error (.emptyFile "File is empty") :=
  empty_file_rejected_before_parse "x.csv" _ (by decide)

/-- A persisted customer document as far as listing/clearing are
concerned: its owner, its ISO-8601 upload timestamp (ISO strings compare
like the instants they denote), and an opaque identifier standing for the
rest of the document. -/
structure StoredCustomer where
  user_id : String
  uploaded_at : String
  doc_id : String
  deriving DecidableEq

/-- Insert into a list kept in descending `uploaded_at` order (stable:
equal keys keep arrival order). -/
def insertDescBy (c : StoredCustomer) : List StoredCustomer → List StoredCustomer
  | [] => [c]
  | d :: ds =>
      if d.uploaded_at < c.uploaded_at then c :: d :: ds else d :: insertDescBy c ds

/-- `.sort("uploaded_at", -1)`: descending sort by upload time. -/
def sortByUploadedDesc (l : List StoredCustomer) : List StoredCustomer :=
  l.foldr insertDescBy []

/-- `CustomerService.list_customers` (customer_service.py lines 97-104):
find the user's documents, sort by `uploaded_at` descending, and
materialize AT MOST 1000 of them (`.to_list(1000)`); returns the list and
its length (`total`). -/
def list_customers (db : List StoredCustomer) (uid : String) :
    List StoredCustomer × ℕ :=
  let cs := (sortByUploadedDesc (db.filter (fun c => c.user_id == uid))).take 1000
  (cs, cs.length)

/-- `CustomerService.clear_customers` (customer_service.py lines 106-109):
delete every document of the user, return the remaining collection and
the deleted count. -/
def clear_customers (db : List StoredCustomer) (uid : String) :
    List StoredCustomer × ℕ :=
  (db.filter (fun c => !(c.user_id == uid)),
   (db.filter (fun c => c.user_id == uid)).length)

/-- Auxiliary: inserting adds one element. -/
theorem length_insertDescBy (c : StoredCustomer) (l : List StoredCustomer) :
    (insertDescBy c l).length = l.length + 1 := by
  induction l with
  | nil => rfl
  | cons d ds ih =>
    by_cases h : d.uploaded_at < c.uploaded_at <;> simp [insertDescBy, h, ih]

/-- Auxiliary: sorting preserves length. -/
theorem length_sortByUploadedDesc (l : List StoredCustomer) :
    (sortByUploadedDesc l).length = l.length := by
  induction l with
  | nil => rfl
  | cons d ds ih => simp [sortByUploadedDesc, length_insertDescBy, ih] at ih ⊢

/-- Auxiliary: inserting is a permutation of consing. -/
theorem perm_insertDescBy (c : StoredCustomer) (l : List StoredCustomer) :
    (insertDescBy c l).Perm (c :: l) := by
  induction l with
  | nil => exact List.Perm.refl _
  | cons d ds ih =>
    by_cases h : d.uploaded_at < c.uploaded_at
    · simp [insertDescBy, h]
    · simp only [insertDescBy, if_neg h]
      exact (ih.cons d).trans (List.Perm.swap c d ds)

/-- Auxiliary: sorting permutes the input. -/
theorem perm_sortByUploadedDesc (l : List StoredCustomer) :
    (sortByUploadedDesc l).Perm l := by
  induction l with
  | nil => exact List.Perm.refl _
  | cons d ds ih =>
    exact (perm_insertDescBy d (sortByUploadedDesc ds)).trans (ih.cons d)

/-- Auxiliary: inserting preserves descending-by-`uploaded_at` order. -/
theorem pairwise_insertDescBy (c : StoredCustomer) (l : List StoredCustomer)
    (h : l.Pairwise (fun a b => b.uploaded_at ≤ a.uploaded_at)) :
    (insertDescBy c l).Pairwise (fun a b => b.uploaded_at ≤ a.uploaded_at) := by
  induction l with
  | nil => simp [insertDescBy]
  | cons d ds ih =>
    rcases List.pairwise_cons.mp h with ⟨hd, hds⟩
    by_cases hlt : d.uploaded_at < c.uploaded_at
    · rw [insertDescBy, if_pos hlt]
      refine List.pairwise_cons.mpr ⟨?_, h⟩
      intro x hx
      rcases List.mem_cons.mp hx with rfl | hx2
      · exact le_of_lt hlt
      · exact le_trans (hd x hx2) (le_of_lt hlt)
    · rw [insertDescBy, if_neg hlt]
      refine List.pairwise_cons.mpr ⟨?_, ih hds⟩
      intro x hx
      rcases List.mem_cons.mp ((perm_insertDescBy c ds).mem_iff.mp hx) with rfl | h2
      · exact not_lt.mp hlt
      · exact hd x h2

/-- Auxiliary: the sort output is descending by `uploaded_at`. -/
theorem pairwise_sortByUploadedDesc (l : List StoredCustomer) :
    (sortByUploadedDesc l).Pairwise (fun a b => b.uploaded_at ≤ a.uploaded_at) := by
  induction l with
  | nil => simp [sortByUploadedDesc]
  | cons d ds ih => exact pairwise_insertDescBy d (sortByUploadedDesc ds) ih

/-- Auxiliary: kept plus deleted lengths recompose the collection. -/
theorem filter_split_length (p : StoredCustomer → Bool) (l : List StoredCustomer) :
    (l.filter (fun x => !p x)).length + (l.filter p).length = l.length := by
  induction l with
  | nil => rfl
  | cons x xs ih =>
    cases hx : p x <;> simp [List.filter_cons, hx] <;> omega

/-- A collection holding 1001 documents of one user. -/
def manyDb : List StoredCustomer := List.replicate 1001 ⟨"u", "t", "x"⟩

/-- C9 counterexample: with 1001 documents owned by user "u", listing
returns only 1000 of them (`.to_list(1000)` caps the result), so the
result is not all of the user's documents. -/
theorem listing_caps_at_1000 :
    (list_customers manyDb "u").1.length = 1000 ∧
    (manyDb.filter (fun x => x.user_id == "u")).length = 1001 ∧
    ¬ (list_customers manyDb "u").1.Perm (manyDb.filter (fun x => x.user_id == "u")) := by
  have hf : manyDb.filter (fun x => x.user_id == "u") = manyDb := by
    apply List.filter_eq_self.mpr
    intro a ha
    have hval := List.eq_of_mem_replicate ha
    subst hval
    rfl
  have hlen : manyDb.length = 1001 := by rw [manyDb, List.length_replicate]
  have h1 : (list_customers manyDb "u").1.length = 1000 := by
    simp only [list_customers, hf, List.length_take, length_sortByUploadedDesc, hlen]
    omega
  refine ⟨h1, by rw [hf, hlen], fun hp => ?_⟩
  have := hp.length_eq
  rw [h1, hf, hlen] at this
  exact absurd this (by decide)

/-- C9 amended: listing returns only documents of the requested user,
in descending `uploaded_at` order, and returns ALL of them only up to the
`.to_list(1000)` cap (when the user owns at most 1000, the result is a
permutation of exactly the owned documents; `total` is the returned
count); clearing removes exactly the user's documents and reports their
number. -/
theorem list_and_clear_scoped (db : List StoredCustomer) (uid : String)
    (c : StoredCustomer) :
    (c ∈ (list_customers db uid).1 → c.user_id = uid) ∧
    (list_customers db uid).1.Pairwise (fun a b => b.uploaded_at ≤ a.uploaded_at) ∧
    ((db.filter (fun x => x.user_id == uid)).length ≤ 1000 →
      (list_customers db uid).1.Perm (db.filter (fun x => x.user_id == uid))) ∧
    (list_customers db uid).2 = (list_customers db uid).1.length ∧
    (c ∈ (clear_customers db uid).1 ↔ c ∈ db ∧ c.user_id ≠ uid) ∧
    (clear_customers db uid).2 = (db.filter (fun x => x.user_id == uid)).length ∧
    (clear_customers db uid).1.length + (clear_customers db uid).2 = db.length := by
  refine ⟨?_, ?_, ?_, rfl, ?_, rfl, filter_split_length _ db⟩
  · intro hc
    have h2 : c ∈ sortByUploadedDesc (db.filter (fun x => x.user_id == uid)) :=
      List.mem_of_mem_take hc
    have h3 : c ∈ db.filter (fun x => x.user_id == uid) :=
      (perm_sortByUploadedDesc _).mem_iff.mp h2
    have h4 := (List.mem_filter.mp h3).2
    simpa using h4
  · exact (pairwise_sortByUploadedDesc _).sublist (List.take_sublist _ _)
  · intro hle
    have hlen : (sortByUploadedDesc (db.filter (fun x => x.user_id == uid))).length ≤ 1000 := by
      rw [length_sortByUploadedDesc]; exact hle
    have htake : (sortByUploadedDesc (db.filter (fun x => x.user_id == uid))).take 1000 =
        sortByUploadedDesc (db.filter (fun x => x.user_id == uid)) :=
      List.take_of_length_le hlen
    show ((sortByUploadedDesc (db.filter (fun x => x.user_id == uid))).take 1000).Perm _
    rw [htake]
    exact perm_sortByUploadedDesc _
  · simp [clear_customers, List.mem_filter]

/-- Witness for `list_and_clear_scoped` on a three-document collection
owned by two users. -/
theorem list_and_clear_scoped_witness :
    (list_customers [⟨"u", "2", "a"⟩, ⟨"v", "3", "b"⟩, ⟨"u", "1", "c"⟩] "u").1.Perm
      ([⟨"u", "2", "a"⟩, ⟨"v", "3", "b"⟩, ⟨"u", "1", "c"⟩].filter
        (fun x => x.user_id == "u")) ∧
    (⟨"v", "3", "b"⟩ : StoredCustomer) ∈
      (clear_customers [⟨"u", "2", "a"⟩, ⟨"v", "3", "b"⟩, ⟨"u", "1", "c"⟩] "u").1 := by
  have h := list_and_clear_scoped [⟨"u", "2", "a"⟩, ⟨"v", "3", "b"⟩, ⟨"u", "1", "c"⟩] "u"
    ⟨"v", "3", "b"⟩
  exact ⟨h.2.2.1 (by decide), h.2.2.2.2.1.mpr ⟨by decide, by decide⟩⟩
